import Mathlib

/-!
# Verification of the React blogging app's notification server

Shallow embedding of `elastic-search-server/index.js`: the subscription
registry (`userSubscriptions`), the notification log (Elasticsearch index
`notifications_index`, modelled as an append-ordered list of documents), the
post store (`es_index7`), the socket sessions and their rooms, and the HTTP
and socket handlers that mutate them.  External store calls that can fail
(`client.index` for posts and notifications) are modelled with explicit
success oracles (`saveOk`, `appendOk`); the handlers' `try`/`catch` structure
is reflected in how a failure propagates.  The out-of-scope endpoints
(`/generateReply`, `/proxy-serpapi`, static uploads) touch none of this
state and are not modelled.
-/

namespace BlogServer

/-- A document of the notifications index: `createNotification` stores
`{ username, message, timestamp, postId, topic, read: false }`. -/
structure Notification where
  username : String
  message : String
  timestamp : Nat
  postId : String
  topic : String
  read : Bool
deriving Repr, DecidableEq

/-- A post document of `es_index7` (the optional image reference is kept as
an `Option`, as the handler stores `null` when no file is uploaded). -/
structure Post where
  id : String
  title : String
  topic : String
  description : String
  author : String
  dateCreated : String
  image : Option String
deriving Repr, DecidableEq

/-- The `userSubscriptions` object: username → Set of topics.  A JS object
keyed by strings iterates its keys in insertion order, so it is modelled as
an association list; the `Set` of topics is a duplicate-free list in
insertion order. -/
abbrev Subs := List (String × List String)

/-- A socket.io session: `socket.username` is `undefined` until a
`register` event sets it, and `socket.join`/`socket.leave` maintain the
rooms the session belongs to. -/
structure Socket where
  username : Option String
  rooms : List String
deriving Repr, DecidableEq

/-- The server's mutable state: the subscription registry, the notification
log (documents of `notifications_index` in append order), the post store
(`es_index7`), and the currently connected sockets keyed by socket id. -/
structure SystemState where
  userSubscriptions : Subs
  notifications : List Notification
  posts : List Post
  sockets : List (Nat × Socket)
deriving Repr, DecidableEq

/-- `socket.join(room)`: a socket.io room membership is a set, so joining a
room the socket is already in is a no-op. -/
def roomJoin (rooms : List String) (r : String) : List String :=
  if r ∈ rooms then rooms else rooms ++ [r]

/-- `userSubscriptions[u].add(t)` preceded by
`if (!userSubscriptions[u]) userSubscriptions[u] = new Set()`: update the
entry for key `u` (JS object keys are unique, so the first match is the
entry), creating it when absent; `Set.add` is a no-op on a present topic. -/
def subsAdd : Subs → String → String → Subs
  | [], u, t => [(u, [t])]
  | (k, l) :: rest, u, t =>
    if k = u then (k, if t ∈ l then l else l ++ [t]) :: rest
    else (k, l) :: subsAdd rest u t

/-- `if (userSubscriptions[u]) userSubscriptions[u].delete(t)`: remove `t`
from the topic set of the entry for `u`, if that entry exists. -/
def subsDelete : Subs → String → String → Subs
  | [], _, _ => []
  | (k, l) :: rest, u, t =>
    if k = u then (k, l.filter (fun x => x != t)) :: rest
    else (k, l) :: subsDelete rest u t

/-- The pair `(u, t)` is a registered subscription: some entry of the
registry has key `u` and contains topic `t`. -/
def hasSub (subs : Subs) (u t : String) : Bool :=
  subs.any (fun q => q.1 == u && q.2.contains t)

/-- The usernames the publish fan-out loop notifies for a topic:
`for (const username in userSubscriptions) if (userSubscriptions[username].has(topic))`,
in registry (insertion) order. -/
def fanoutRecipients (subs : Subs) (topic : String) : List String :=
  (subs.filter (fun q => q.2.contains topic)).map Prod.fst

/-- Look up a connected socket by id (first entry with that id). -/
def sockLookup : List (Nat × Socket) → Nat → Option Socket
  | [], _ => none
  | (k, s) :: rest, sid => if k == sid then some s else sockLookup rest sid

/-- Replace the socket stored under `sid` (no-op when absent). -/
def sockUpdate : List (Nat × Socket) → Nat → Socket → List (Nat × Socket)
  | [], _, _ => []
  | (k, s0) :: rest, sid, s =>
    if k == sid then (k, s) :: rest else (k, s0) :: sockUpdate rest sid s

/-- JS truthiness of `socket.username`: `undefined` and the empty string are
falsy. -/
def usernameTruthy : Option String → Bool
  | none => false
  | some u => u != ""

/-- `io.on('connection', ...)`: a fresh socket with no bound username and no
rooms. -/
def socketConnect (sys : SystemState) (sid : Nat) : SystemState :=
  { sys with sockets := sys.sockets ++ [(sid, { username := none, rooms := [] })] }

/-- `socket.on('register')`: bind the username to the socket and join the
room named after the username. -/
def socketRegister (sys : SystemState) (sid : Nat) (u : String) : SystemState :=
  match sockLookup sys.sockets sid with
  | some s =>
    { sys with sockets :=
        sockUpdate sys.sockets sid { s with username := some u, rooms := roomJoin s.rooms u } }
  | none => sys

/-- `socket.on('subscribeToTopic')`: always join the topic's room; record a
`(username, topic)` subscription only when `socket.username` is truthy. -/
def socketSubscribeToTopic (sys : SystemState) (sid : Nat) (topic : String) : SystemState :=
  match sockLookup sys.sockets sid with
  | some s =>
    let subs :=
      if usernameTruthy s.username then
        subsAdd sys.userSubscriptions (s.username.getD "") topic
      else sys.userSubscriptions
    { sys with
        userSubscriptions := subs,
        sockets := sockUpdate sys.sockets sid { s with rooms := roomJoin s.rooms topic } }
  | none => sys

/-- `socket.on('unsubscribeFromTopic')`: leave the topic's room; when
`socket.username` is truthy and has an entry, delete the topic from it. -/
def socketUnsubscribeFromTopic (sys : SystemState) (sid : Nat) (topic : String) : SystemState :=
  match sockLookup sys.sockets sid with
  | some s =>
    let subs :=
      if usernameTruthy s.username then
        subsDelete sys.userSubscriptions (s.username.getD "") topic
      else sys.userSubscriptions
    { sys with
        userSubscriptions := subs,
        sockets := sockUpdate sys.sockets sid { s with rooms := s.rooms.filter (fun r => r != topic) } }
  | none => sys

/-- `socket.on('disconnect')`: the handler only logs; socket.io drops the
session and its room memberships.  `userSubscriptions` is untouched. -/
def socketDisconnect (sys : SystemState) (sid : Nat) : SystemState :=
  { sys with sockets := sys.sockets.filter (fun q => q.1 != sid) }

/-- An HTTP response: status code and the payload's message or error text. -/
structure HttpResp where
  status : Nat
  message : String
deriving Repr, DecidableEq

/-- `app.post('/subscribe')`: validates that `username` and `topic` are
truthy and answers `"Subscribed <u> to <t>"`.  The handler body contains no
other statement: it never touches `userSubscriptions`. -/
def httpSubscribe (sys : SystemState) (username topic : String) : SystemState × HttpResp :=
  if username = "" ∨ topic = "" then
    (sys, ⟨400, "username and topic are required"⟩)
  else
    (sys, ⟨200, "Subscribed " ++ username ++ " to " ++ topic⟩)

/-- `app.post('/unsubscribe')`: validates the fields, then
`if (userSubscriptions[username]) userSubscriptions[username].delete(topic)`. -/
def httpUnsubscribe (sys : SystemState) (username topic : String) : SystemState × HttpResp :=
  if username = "" ∨ topic = "" then
    (sys, ⟨400, "username and topic are required"⟩)
  else
    ({ sys with userSubscriptions := subsDelete sys.userSubscriptions username topic },
     ⟨200, "Unsubscribed " ++ username ++ " from " ++ topic⟩)

/-- `app.get('/subscriptions/:username')`: `Array.from` of the user's topic
set, or `[]` when the user has no entry. -/
def httpListSubscriptions (sys : SystemState) (username : String) : List String :=
  match (sys.userSubscriptions.find? (fun q => q.1 == username)).map Prod.snd with
  | some l => l
  | none => []

/-- The notification payload built once per publish and shared by every
recipient: `{ message, timestamp: new Date(), postId: id, topic }`. -/
structure NotifBody where
  message : String
  timestamp : Nat
  postId : String
  topic : String
deriving Repr, DecidableEq

/-- The document `createNotification` stores for a recipient:
`{ username, ...notification, read: false }`. -/
def notifOf (b : NotifBody) (u : String) : Notification :=
  { username := u, message := b.message, timestamp := b.timestamp,
    postId := b.postId, topic := b.topic, read := false }

/-- `createNotification(username, notification)`: `client.index` into
`notifications_index`, with the whole call wrapped in `try`/`catch` — a
store failure (`storeOk = false`) is logged and swallowed, so the function
never throws and on failure the log is unchanged. -/
def createNotification (log : List Notification) (storeOk : Bool) (u : String)
    (b : NotifBody) : List Notification :=
  if storeOk then log ++ [notifOf b u] else log

/-- `client.index({ index: 'es_index7', id, document })`: indexing with an
explicit id overwrites a document with the same id, otherwise appends. -/
def postsSave (posts : List Post) (p : Post) : List Post :=
  if posts.any (fun q => q.id == p.id) then
    posts.map (fun q => if q.id == p.id then p else q)
  else posts ++ [p]

/-- `"New post in <topic> posted by <author>: <title>"`. -/
def publishMessage (p : Post) : String :=
  "New post in " ++ p.topic ++ " posted by " ++ p.author ++ ": " ++ p.title

/-- The outcome of `app.post('/posts')`: the state afterwards, the HTTP
status sent, and the `io.to(username).emit('newPost', notification)` pushes
in the order they were emitted. -/
structure PublishOutcome where
  state : SystemState
  status : Nat
  emits : List (String × NotifBody)
deriving Repr, DecidableEq

/-- `app.post('/posts')`: persist the post (`saveOk` is whether
`client.index` succeeds; on failure the handler's `catch` answers 500 and
nothing after the save runs), then build the notification once and loop
over `userSubscriptions`, calling `createNotification` (whose per-recipient
store success is `appendOk u`, and which swallows its own failures) and
emitting to the recipient's room, finally answering 201. -/
def publish (sys : SystemState) (p : Post) (now : Nat) (saveOk : Bool)
    (appendOk : String → Bool) : PublishOutcome :=
  if saveOk then
    let b : NotifBody := ⟨publishMessage p, now, p.id, p.topic⟩
    let recips := fanoutRecipients sys.userSubscriptions p.topic
    { state :=
        { sys with
            posts := postsSave sys.posts p,
            notifications :=
              recips.foldl (fun log u => createNotification log (appendOk u) u b)
                sys.notifications },
      status := 201,
      emits := recips.map (fun u => (u, b)) }
  else
    { state := sys, status := 500, emits := [] }

/-- Insert into a list already sorted by timestamp descending, after every
element with a greater-or-equal timestamp (stable for ties). -/
def insertByTimestampDesc (n : Notification) : List Notification → List Notification
  | [] => [n]
  | m :: rest =>
    if n.timestamp ≤ m.timestamp then m :: insertByTimestampDesc n rest
    else n :: m :: rest

/-- Sort by timestamp descending (the `sort: [{ timestamp: { order: 'desc' } }]`
of the notifications query). -/
def sortByTimestampDesc : List Notification → List Notification
  | [] => []
  | n :: rest => insertByTimestampDesc n (sortByTimestampDesc rest)

/-- `app.get('/notifications/:username')`: a `term` query on `username`
sorted by timestamp descending; the hits' sources are returned. -/
def listFor (sys : SystemState) (u : String) : List Notification :=
  sortByTimestampDesc (sys.notifications.filter (fun n => n.username == u))

/-- `app.post('/notifications/:username/clear')`: `deleteByQuery` with a
`term` query on `username` removes every document whose username matches. -/
def clearFor (sys : SystemState) (u : String) : SystemState :=
  { sys with notifications := sys.notifications.filter (fun n => n.username != u) }

/-- A partial update document for `PUT /posts/:id` (`client.update` merges
the provided fields into the stored document). -/
structure PostPatch where
  title : Option String
  topic : Option String
  description : Option String
  author : Option String
  dateCreated : Option String
deriving Repr, DecidableEq

/-- Merge a patch into a stored post. -/
def applyPatch (p : Post) (q : PostPatch) : Post :=
  { p with
      title := q.title.getD p.title,
      topic := q.topic.getD p.topic,
      description := q.description.getD p.description,
      author := q.author.getD p.author,
      dateCreated := q.dateCreated.getD p.dateCreated }

/-- `app.put('/posts/:id')`: merge the body into the document with that id. -/
def httpUpdatePost (sys : SystemState) (id : String) (q : PostPatch) : SystemState :=
  { sys with posts := sys.posts.map (fun p => if p.id == id then applyPatch p q else p) }

/-- `app.delete('/posts/:id')`: delete the document with that id. -/
def httpDeletePost (sys : SystemState) (id : String) : SystemState :=
  { sys with posts := sys.posts.filter (fun p => p.id != id) }

/-- Every state-touching request or socket event the server handles.  The
read-only GET endpoints are pure queries over the state and mutate
nothing, so they have no event. -/
inductive Event where
  | connect (sid : Nat)
  | register (sid : Nat) (username : String)
  | subscribeToTopic (sid : Nat) (topic : String)
  | unsubscribeFromTopic (sid : Nat) (topic : String)
  | disconnect (sid : Nat)
  | httpSubscribe (username topic : String)
  | httpUnsubscribe (username topic : String)
  | publishPost (p : Post) (now : Nat) (saveOk : Bool) (appendOk : String → Bool)
  | clearNotifications (username : String)
  | updatePost (id : String) (q : PostPatch)
  | deletePost (id : String)

/-- The state transition of one handled event. -/
def step (sys : SystemState) : Event → SystemState
  | .connect sid => socketConnect sys sid
  | .register sid u => socketRegister sys sid u
  | .subscribeToTopic sid t => socketSubscribeToTopic sys sid t
  | .unsubscribeFromTopic sid t => socketUnsubscribeFromTopic sys sid t
  | .disconnect sid => socketDisconnect sys sid
  | .httpSubscribe u t => (httpSubscribe sys u t).1
  | .httpUnsubscribe u t => (httpUnsubscribe sys u t).1
  | .publishPost p now saveOk appendOk => (publish sys p now saveOk appendOk).state
  | .clearNotifications u => clearFor sys u
  | .updatePost id q => httpUpdatePost sys id q
  | .deletePost id => httpDeletePost sys id

/-- The state of a freshly started server. -/
def initState : SystemState := ⟨[], [], [], []⟩

/-! ## Concrete states used by the witnesses -/

/-- A session that connected and registered as alice, then subscribed to
"sports" through the socket event. -/
def sysAlice : SystemState :=
  step (step (step initState (.connect 1)) (.register 1 "alice"))
    (.subscribeToTopic 1 "sports")

/-- Alice and bob both subscribed to "sports" through socket sessions. -/
def sysTwo : SystemState :=
  step (step (step sysAlice (.connect 2)) (.register 2 "bob"))
    (.subscribeToTopic 2 "sports")

/-- A session that connected but never registered. -/
def sysConn : SystemState := socketConnect initState 1

/-- The concrete post of the spec's scenario. -/
def post1 : Post :=
  ⟨"p1", "Game Day", "sports", "A post about game day", "bob", "2024-01-01", none⟩

/-- The notification the fan-out stores for alice when `post1` is published
at time 5. -/
def notifAlice : Notification :=
  ⟨"alice", "New post in sports posted by bob: Game Day", 5, "p1", "sports", false⟩

/-! ## Registry lemmas -/

lemma contains_true_iff (l : List String) (a : String) : l.contains a = true ↔ a ∈ l := by
  simp [List.contains]

lemma hasSub_nil (u t : String) : hasSub [] u t = false := rfl

lemma hasSub_cons (k : String) (l : List String) (rest : Subs) (u t : String) :
    hasSub ((k, l) :: rest) u t = ((k == u && l.contains t) || hasSub rest u t) := rfl

lemma hasSub_subsDelete_imp (u₀ t₀ u t : String) :
    ∀ subs : Subs, hasSub (subsDelete subs u₀ t₀) u t = true →
      hasSub subs u t = true := by
  intro subs
  induction subs with
  | nil => simp [subsDelete]
  | cons q rest ih =>
    obtain ⟨k, l⟩ := q
    by_cases hk : k = u₀
    · simp only [subsDelete, if_pos hk, hasSub_cons, Bool.or_eq_true, Bool.and_eq_true]
      rintro (⟨hku, hmem⟩ | hrest)
      · refine Or.inl ⟨hku, ?_⟩
        rw [contains_true_iff] at hmem ⊢
        exact (List.mem_filter.mp hmem).1
      · exact Or.inr hrest
    · simp only [subsDelete, if_neg hk, hasSub_cons, Bool.or_eq_true]
      rintro (hhead | hrest)
      · exact Or.inl hhead
      · exact Or.inr (ih hrest)

lemma hasSub_subsAdd_imp (u₀ t₀ u t : String) :
    ∀ subs : Subs, hasSub (subsAdd subs u₀ t₀) u t = true →
      hasSub subs u t = true ∨ (u = u₀ ∧ t = t₀) := by
  intro subs
  induction subs with
  | nil =>
    intro h
    simp only [subsAdd, hasSub_cons, hasSub_nil, Bool.or_false,
      Bool.and_eq_true, beq_iff_eq] at h
    obtain ⟨h1, h2⟩ := h
    rw [contains_true_iff, List.mem_singleton] at h2
    exact Or.inr ⟨h1.symm, h2⟩
  | cons q rest ih =>
    obtain ⟨k, l⟩ := q
    by_cases hk : k = u₀
    · simp only [subsAdd, if_pos hk, hasSub_cons, Bool.or_eq_true, Bool.and_eq_true]
      rintro (⟨hku, hmem⟩ | hrest)
      · rw [contains_true_iff] at hmem
        by_cases hl : t₀ ∈ l
        · rw [if_pos hl] at hmem
          refine Or.inl (Or.inl ⟨hku, ?_⟩)
          rw [contains_true_iff]
          exact hmem
        · rw [if_neg hl, List.mem_append, List.mem_singleton] at hmem
          rcases hmem with hmem | hmem
          · refine Or.inl (Or.inl ⟨hku, ?_⟩)
            rw [contains_true_iff]
            exact hmem
          · have hku' : k = u := by simpa using hku
            refine Or.inr ⟨?_, hmem⟩
            rw [← hku']
            exact hk
      · exact Or.inl (Or.inr hrest)
    · simp only [subsAdd, if_neg hk, hasSub_cons, Bool.or_eq_true]
      rintro (hhead | hrest)
      · exact Or.inl (Or.inl hhead)
      · rcases ih hrest with h | h
        · exact Or.inl (Or.inr h)
        · exact Or.inr h

lemma hasSub_false_of_not_key (u t : String) :
    ∀ subs : Subs, u ∉ subs.map Prod.fst → hasSub subs u t = false := by
  intro subs
  induction subs with
  | nil => simp [hasSub]
  | cons q rest ih =>
    obtain ⟨k, l⟩ := q
    intro h
    simp only [List.map_cons, List.mem_cons, not_or] at h
    simp only [hasSub_cons, Bool.or_eq_false_iff, Bool.and_eq_false_iff]
    exact ⟨Or.inl (by simp [Ne.symm h.1]), ih h.2⟩

lemma hasSub_subsDelete_self (u t : String) :
    ∀ subs : Subs, (subs.map Prod.fst).Nodup →
      hasSub (subsDelete subs u t) u t = false := by
  intro subs
  induction subs with
  | nil => simp [subsDelete, hasSub]
  | cons q rest ih =>
    obtain ⟨k, l⟩ := q
    intro hnd
    simp only [List.map_cons, List.nodup_cons] at hnd
    by_cases hk : k = u
    · simp only [subsDelete, if_pos hk, hasSub_cons, Bool.or_eq_false_iff,
        Bool.and_eq_false_iff]
      refine ⟨Or.inr ?_, ?_⟩
      · rw [← Bool.not_eq_true, contains_true_iff]
        intro hmem
        simp at hmem
      · exact hasSub_false_of_not_key u t rest (hk ▸ hnd.1)
    · simp only [subsDelete, if_neg hk, hasSub_cons, Bool.or_eq_false_iff,
        Bool.and_eq_false_iff]
      exact ⟨Or.inl (by simp [hk]), ih hnd.2⟩

lemma mem_fanoutRecipients (subs : Subs) (u t : String) :
    u ∈ fanoutRecipients subs t ↔ hasSub subs u t = true := by
  simp only [fanoutRecipients, hasSub, List.mem_map, List.mem_filter,
    List.any_eq_true, Bool.and_eq_true, beq_iff_eq]
  constructor
  · rintro ⟨⟨k, l⟩, ⟨hmem, hcont⟩, hfst⟩
    exact ⟨(k, l), hmem, by simpa using hfst, hcont⟩
  · rintro ⟨⟨k, l⟩, hmem, hfst, hcont⟩
    exact ⟨(k, l), ⟨hmem, hcont⟩, by simpa using hfst⟩

/-! ## Publish lemmas -/

lemma foldl_createNotification (ok : String → Bool) (b : NotifBody) :
    ∀ (recips : List String) (log : List Notification),
      recips.foldl (fun acc u => createNotification acc (ok u) u b) log
        = log ++ (recips.filter ok).map (notifOf b) := by
  intro recips
  induction recips with
  | nil => intro log; simp
  | cons u rest ih =>
    intro log
    simp only [List.foldl_cons, List.filter_cons]
    cases h : ok u with
    | false =>
      have hc : createNotification log false u b = log := by
        simp [createNotification]
      rw [hc, ih]
      simp
    | true =>
      have hc : createNotification log true u b = log ++ [notifOf b u] := by
        simp [createNotification]
      rw [hc, ih]
      simp

lemma publish_notifications (sys : SystemState) (p : Post) (now : Nat)
    (appendOk : String → Bool) :
    (publish sys p now true appendOk).state.notifications
      = sys.notifications ++
          ((fanoutRecipients sys.userSubscriptions p.topic).filter appendOk).map
            (notifOf ⟨publishMessage p, now, p.id, p.topic⟩) := by
  simp [publish, foldl_createNotification]

lemma publish_subs (sys : SystemState) (p : Post) (now : Nat) (saveOk : Bool)
    (appendOk : String → Bool) :
    (publish sys p now saveOk appendOk).state.userSubscriptions
      = sys.userSubscriptions := by
  cases saveOk <;> simp [publish]

lemma publish_sockets (sys : SystemState) (p : Post) (now : Nat) (saveOk : Bool)
    (appendOk : String → Bool) :
    (publish sys p now saveOk appendOk).state.sockets = sys.sockets := by
  cases saveOk <;> simp [publish]

lemma filter_username_map_notifOf (b : NotifBody) (u : String) :
    ∀ recips : List String, u ∉ recips →
      (recips.map (notifOf b)).filter (fun n => n.username == u) = [] := by
  intro recips
  induction recips with
  | nil => intro _; rfl
  | cons r rest ih =>
    intro h
    simp only [List.mem_cons, not_or] at h
    simp only [List.map_cons, List.filter_cons]
    have : (((notifOf b r).username == u) = false) := by
      simp [notifOf, Ne.symm h.1]
    rw [this]
    exact ih h.2

lemma listFor_publish_of_no_sub (sys : SystemState) (u : String) (p : Post)
    (now : Nat) (saveOk : Bool) (appendOk : String → Bool)
    (h : hasSub sys.userSubscriptions u p.topic = false) :
    listFor (publish sys p now saveOk appendOk).state u = listFor sys u := by
  cases saveOk with
  | false => rfl
  | true =>
    unfold listFor
    rw [publish_notifications, List.filter_append, filter_username_map_notifOf,
      List.append_nil]
    intro hmem
    have hrec : u ∈ fanoutRecipients sys.userSubscriptions p.topic :=
      List.mem_of_mem_filter hmem
    rw [mem_fanoutRecipients] at hrec
    rw [hrec] at h
    cases h

lemma httpUnsubscribe_notifications (sys : SystemState) (u t : String) :
    ((httpUnsubscribe sys u t).1).notifications = sys.notifications := by
  unfold httpUnsubscribe
  split <;> rfl

lemma httpUnsubscribe_subs_valid (sys : SystemState) (u t : String)
    (hu : u ≠ "") (ht : t ≠ "") :
    ((httpUnsubscribe sys u t).1).userSubscriptions
      = subsDelete sys.userSubscriptions u t := by
  simp [httpUnsubscribe, hu, ht]

lemma httpSubscribe_state (sys : SystemState) (u t : String) :
    (httpSubscribe sys u t).1 = sys := by
  unfold httpSubscribe
  split <;> rfl

/-! ## Idempotence lemmas -/

lemma roomJoin_idem (rooms : List String) (t : String) :
    roomJoin (roomJoin rooms t) t = roomJoin rooms t := by
  unfold roomJoin
  by_cases h : t ∈ rooms
  · simp [h]
  · simp [h]

lemma subsAdd_idem (u t : String) :
    ∀ subs : Subs, subsAdd (subsAdd subs u t) u t = subsAdd subs u t := by
  intro subs
  induction subs with
  | nil => simp [subsAdd]
  | cons q rest ih =>
    obtain ⟨k, l⟩ := q
    by_cases hk : k = u
    · by_cases hl : t ∈ l
      · simp [subsAdd, hk, hl]
      · simp [subsAdd, hk, hl]
    · simp [subsAdd, hk, ih]

lemma filter_bne_idem (t : String) :
    ∀ l : List String,
      (l.filter (fun x => x != t)).filter (fun x => x != t)
        = l.filter (fun x => x != t) := by
  intro l
  induction l with
  | nil => rfl
  | cons x rest ih =>
    by_cases h : x = t
    · simp [List.filter_cons, h, ih]
    · simp [List.filter_cons, h, ih]

lemma subsDelete_idem (u t : String) :
    ∀ subs : Subs, subsDelete (subsDelete subs u t) u t = subsDelete subs u t := by
  intro subs
  induction subs with
  | nil => rfl
  | cons q rest ih =>
    obtain ⟨k, l⟩ := q
    by_cases hk : k = u
    · simp [subsDelete, hk, filter_bne_idem]
    · simp [subsDelete, hk, ih]

/-! ## Socket-table lemmas -/

lemma sockUpdate_sockUpdate (sid : Nat) (a b : Socket) :
    ∀ socks : List (Nat × Socket),
      sockUpdate (sockUpdate socks sid a) sid b = sockUpdate socks sid b := by
  intro socks
  induction socks with
  | nil => rfl
  | cons q rest ih =>
    obtain ⟨k, s⟩ := q
    by_cases hk : k = sid
    · simp [sockUpdate, hk]
    · simp [sockUpdate, hk, ih]

lemma sockLookup_sockUpdate (sid : Nat) (s : Socket) :
    ∀ (socks : List (Nat × Socket)) (s0 : Socket),
      sockLookup socks sid = some s0 →
        sockLookup (sockUpdate socks sid s) sid = some s := by
  intro socks
  induction socks with
  | nil => intro s0 h; cases h
  | cons q rest ih =>
    obtain ⟨k, s1⟩ := q
    intro s0 h
    by_cases hk : k = sid
    · simp [sockUpdate, sockLookup, hk]
    · simp only [sockUpdate, sockLookup, beq_iff_eq, if_neg hk] at h ⊢
      exact ih s0 h

/-! ## Clearing lemmas -/

lemma filter_username_clear_self (u : String) :
    ∀ log : List Notification,
      (log.filter (fun n => n.username != u)).filter (fun n => n.username == u)
        = [] := by
  intro log
  induction log with
  | nil => rfl
  | cons n rest ih =>
    by_cases hn : n.username = u
    · simp [List.filter_cons, hn, ih]
    · simp [List.filter_cons, hn, ih]

lemma filter_username_clear_other (u v : String) (h : v ≠ u) :
    ∀ log : List Notification,
      (log.filter (fun n => n.username != u)).filter (fun n => n.username == v)
        = log.filter (fun n => n.username == v) := by
  intro log
  induction log with
  | nil => rfl
  | cons n rest ih =>
    by_cases hn : n.username = u
    · have hv : (n.username == v) = false := by simp [hn, Ne.symm h]
      simp [List.filter_cons, hn, hv, ih, Ne.symm h]
    · simp [List.filter_cons, hn, ih]

lemma listFor_clearFor_self (sys : SystemState) (u : String) :
    listFor (clearFor sys u) u = [] := by
  unfold listFor clearFor
  rw [filter_username_clear_self]
  rfl

lemma listFor_clearFor_other (sys : SystemState) (u v : String) (h : v ≠ u) :
    listFor (clearFor sys u) v = listFor sys v := by
  unfold listFor clearFor
  rw [filter_username_clear_other u v h]

/-! ## Frame lemmas for the subscription registry across all events -/

lemma socketConnect_subs (sys : SystemState) (sid : Nat) :
    (socketConnect sys sid).userSubscriptions = sys.userSubscriptions := rfl

lemma socketRegister_subs (sys : SystemState) (sid : Nat) (u : String) :
    (socketRegister sys sid u).userSubscriptions = sys.userSubscriptions := by
  unfold socketRegister
  cases sockLookup sys.sockets sid <;> rfl

lemma socketDisconnect_subs (sys : SystemState) (sid : Nat) :
    (socketDisconnect sys sid).userSubscriptions = sys.userSubscriptions := rfl

lemma clearFor_subs (sys : SystemState) (u : String) :
    (clearFor sys u).userSubscriptions = sys.userSubscriptions := rfl

lemma httpUpdatePost_subs (sys : SystemState) (id : String) (q : PostPatch) :
    (httpUpdatePost sys id q).userSubscriptions = sys.userSubscriptions := rfl

lemma httpDeletePost_subs (sys : SystemState) (id : String) :
    (httpDeletePost sys id).userSubscriptions = sys.userSubscriptions := rfl

lemma socketSubscribeToTopic_lookup_none (sys : SystemState) (sid : Nat) (t : String)
    (hs : sockLookup sys.sockets sid = none) :
    socketSubscribeToTopic sys sid t = sys := by
  unfold socketSubscribeToTopic
  rw [hs]

lemma socketSubscribeToTopic_subs_some (sys : SystemState) (sid : Nat) (t : String)
    (s : Socket) (hs : sockLookup sys.sockets sid = some s) :
    (socketSubscribeToTopic sys sid t).userSubscriptions =
      if usernameTruthy s.username then
        subsAdd sys.userSubscriptions (s.username.getD "") t
      else sys.userSubscriptions := by
  unfold socketSubscribeToTopic
  rw [hs]

lemma socketUnsubscribeFromTopic_lookup_none (sys : SystemState) (sid : Nat) (t : String)
    (hs : sockLookup sys.sockets sid = none) :
    socketUnsubscribeFromTopic sys sid t = sys := by
  unfold socketUnsubscribeFromTopic
  rw [hs]

lemma socketUnsubscribeFromTopic_subs_some (sys : SystemState) (sid : Nat) (t : String)
    (s : Socket) (hs : sockLookup sys.sockets sid = some s) :
    (socketUnsubscribeFromTopic sys sid t).userSubscriptions =
      if usernameTruthy s.username then
        subsDelete sys.userSubscriptions (s.username.getD "") t
      else sys.userSubscriptions := by
  unfold socketUnsubscribeFromTopic
  rw [hs]

/-- The only event that can create a `(username, topic)` subscription that
was not already registered is a socket `subscribeToTopic` event, and the
topic it carries is the subscribed topic. -/
lemma subs_new_only_subscribeToTopic (sys : SystemState) (e : Event) (u t : String)
    (h1 : hasSub (step sys e).userSubscriptions u t = true)
    (h2 : hasSub sys.userSubscriptions u t = false) :
    ∃ sid : Nat, e = Event.subscribeToTopic sid t := by
  cases e with
  | connect sid =>
    rw [step, socketConnect_subs] at h1
    rw [h1] at h2
    cases h2
  | register sid u0 =>
    rw [step, socketRegister_subs] at h1
    rw [h1] at h2
    cases h2
  | subscribeToTopic sid t0 =>
    rw [step] at h1
    cases hs : sockLookup sys.sockets sid with
    | none =>
      rw [socketSubscribeToTopic_lookup_none sys sid t0 hs] at h1
      rw [h1] at h2
      cases h2
    | some s =>
      rw [socketSubscribeToTopic_subs_some sys sid t0 s hs] at h1
      cases htr : usernameTruthy s.username with
      | false =>
        rw [htr] at h1
        simp only [Bool.false_eq_true, if_false] at h1
        rw [h1] at h2
        cases h2
      | true =>
        rw [htr] at h1
        simp only [if_true] at h1
        rcases hasSub_subsAdd_imp (s.username.getD "") t0 u t sys.userSubscriptions h1
          with h | ⟨_, ht⟩
        · rw [h] at h2
          cases h2
        · exact ⟨sid, by rw [ht]⟩
  | unsubscribeFromTopic sid t0 =>
    rw [step] at h1
    cases hs : sockLookup sys.sockets sid with
    | none =>
      rw [socketUnsubscribeFromTopic_lookup_none sys sid t0 hs] at h1
      rw [h1] at h2
      cases h2
    | some s =>
      rw [socketUnsubscribeFromTopic_subs_some sys sid t0 s hs] at h1
      cases htr : usernameTruthy s.username with
      | false =>
        rw [htr] at h1
        simp only [Bool.false_eq_true, if_false] at h1
        rw [h1] at h2
        cases h2
      | true =>
        rw [htr] at h1
        simp only [if_true] at h1
        rw [hasSub_subsDelete_imp (s.username.getD "") t0 u t sys.userSubscriptions h1] at h2
        cases h2
  | disconnect sid =>
    rw [step, socketDisconnect_subs] at h1
    rw [h1] at h2
    cases h2
  | httpSubscribe u0 t0 =>
    rw [step, httpSubscribe_state] at h1
    rw [h1] at h2
    cases h2
  | httpUnsubscribe u0 t0 =>
    rw [step] at h1
    unfold httpUnsubscribe at h1
    by_cases hv : u0 = "" ∨ t0 = ""
    · rw [if_pos hv] at h1
      rw [h1] at h2
      cases h2
    · rw [if_neg hv] at h1
      simp only at h1
      rw [hasSub_subsDelete_imp u0 t0 u t sys.userSubscriptions h1] at h2
      cases h2
  | publishPost p now saveOk appendOk =>
    rw [step, publish_subs] at h1
    rw [h1] at h2
    cases h2
  | clearNotifications u0 =>
    rw [step, clearFor_subs] at h1
    rw [h1] at h2
    cases h2
  | updatePost id q =>
    rw [step, httpUpdatePost_subs] at h1
    rw [h1] at h2
    cases h2
  | deletePost id =>
    rw [step, httpDeletePost_subs] at h1
    rw [h1] at h2
    cases h2

/-- Joining a topic twice through the socket event is the same as joining
it once. -/
lemma socketSubscribeToTopic_idem (sys : SystemState) (sid : Nat) (t : String) :
    socketSubscribeToTopic (socketSubscribeToTopic sys sid t) sid t
      = socketSubscribeToTopic sys sid t := by
  cases hs : sockLookup sys.sockets sid with
  | none =>
    have h1 : socketSubscribeToTopic sys sid t = sys := by
      unfold socketSubscribeToTopic
      rw [hs]
    rw [h1]
    exact h1
  | some s =>
    have hlook : sockLookup (sockUpdate sys.sockets sid { s with rooms := roomJoin s.rooms t }) sid
        = some { s with rooms := roomJoin s.rooms t } :=
      sockLookup_sockUpdate sid _ sys.sockets s hs
    cases htr : usernameTruthy s.username with
    | false =>
      simp [socketSubscribeToTopic, hs, htr, hlook, roomJoin_idem, sockUpdate_sockUpdate]
    | true =>
      simp [socketSubscribeToTopic, hs, htr, hlook, roomJoin_idem, sockUpdate_sockUpdate,
        subsAdd_idem]

lemma publish_fail (sys : SystemState) (p : Post) (now : Nat)
    (appendOk : String → Bool) :
    publish sys p now false appendOk = ⟨sys, 500, []⟩ := rfl

/-! ## Claim theorems -/

/-- C1: the claim says a `subscribe(u,t)` call through the HTTP subscribe
endpoint followed by a publish with topic t makes `listFor(u)` contain a
notification with the post's id.  The code fails this: the endpoint answers
success ("Subscribed alice to sports", status 200) without registering
anything, so the subsequent publish (which itself succeeds with 201)
notifies nobody and alice's notification list stays empty — it contains no
notification at all, in particular none with postId "p1". -/
theorem subscribe_endpoint_then_publish_no_delivery :
    (httpSubscribe initState "alice" "sports").2
        = ⟨200, "Subscribed alice to sports"⟩ ∧
    (publish (httpSubscribe initState "alice" "sports").1 post1 5 true
        (fun _ => true)).status = 201 ∧
    listFor (publish (httpSubscribe initState "alice" "sports").1 post1 5 true
        (fun _ => true)).state "alice" = [] := by
  refine ⟨?_, rfl, rfl⟩
  decide

/-- C2: a request to the HTTP subscribe endpoint carrying both a username
and a topic is answered with the success message and leaves the whole state
(in particular the `userSubscriptions` map) unchanged; and across every
event the server handles, the only one that can register a previously
absent (username, topic) subscription is the socket `subscribeToTopic`
event for that topic. -/
theorem subscribe_endpoint_frame :
    (∀ (sys : SystemState) (u t : String), u ≠ "" → t ≠ "" →
        httpSubscribe sys u t
          = (sys, ⟨200, "Subscribed " ++ u ++ " to " ++ t⟩)) ∧
    (∀ (sys : SystemState) (e : Event) (u t : String),
        hasSub (step sys e).userSubscriptions u t = true →
        hasSub sys.userSubscriptions u t = false →
        ∃ sid : Nat, e = Event.subscribeToTopic sid t) := by
  constructor
  · intro sys u t hu ht
    have h : ¬(u = "" ∨ t = "") := by
      rintro (h | h)
      · exact hu h
      · exact ht h
    simp [httpSubscribe, h]
  · exact subs_new_only_subscribeToTopic

/-- Witness for C2 at a concrete request. -/
theorem subscribe_endpoint_frame_witness :
    httpSubscribe initState "alice" "sports"
      = (initState, ⟨200, "Subscribed " ++ "alice" ++ " to " ++ "sports"⟩) :=
  subscribe_endpoint_frame.1 initState "alice" "sports" (by decide) (by decide)

/-- C3: if u holds no subscription to the post's topic at publish time, the
publish leaves u's notification list exactly as it was. -/
theorem publish_no_spurious_delivery (sys : SystemState) (u : String) (p : Post)
    (now : Nat) (saveOk : Bool) (appendOk : String → Bool)
    (h : hasSub sys.userSubscriptions u p.topic = false) :
    listFor (publish sys p now saveOk appendOk).state u = listFor sys u :=
  listFor_publish_of_no_sub sys u p now saveOk appendOk h

/-- Witness for C3: carol never subscribed, so publishing to "sports" does
not change her list. -/
theorem publish_no_spurious_delivery_witness :
    listFor (publish sysAlice post1 5 true (fun _ => true)).state "carol"
      = listFor sysAlice "carol" :=
  publish_no_spurious_delivery sysAlice "carol" post1 5 true (fun _ => true)
    (by decide)

/-- C4: when persisting the post fails, the publish handler's catch answers
500 and the handler body after the save never runs: the state is unchanged
(no notification appended for any user) and nothing is pushed. -/
theorem publish_persist_failure_aborts (sys : SystemState) (p : Post) (now : Nat)
    (appendOk : String → Bool) :
    publish sys p now false appendOk = ⟨sys, 500, []⟩ :=
  publish_fail sys p now appendOk

/-- C5: every notification a publish appends (it is in the log afterwards
and was not there before) carries the exact message template with the
post's topic, author and title, the publish time, the post's id and topic,
and read = false. -/
theorem publish_notification_shape (sys : SystemState) (p : Post) (now : Nat)
    (appendOk : String → Bool) (n : Notification)
    (hmem : n ∈ (publish sys p now true appendOk).state.notifications)
    (hnew : n ∉ sys.notifications) :
    n.message = "New post in " ++ p.topic ++ " posted by " ++ p.author ++ ": " ++ p.title ∧
    n.timestamp = now ∧ n.postId = p.id ∧ n.topic = p.topic ∧ n.read = false := by
  rw [publish_notifications] at hmem
  rcases List.mem_append.mp hmem with h | h
  · exact absurd h hnew
  · rcases List.mem_map.mp h with ⟨u0, _, rfl⟩
    exact ⟨rfl, rfl, rfl, rfl, rfl⟩

/-- Witness for C5 at the concrete scenario notification. -/
theorem publish_notification_shape_witness :
    notifAlice.message
        = "New post in " ++ post1.topic ++ " posted by " ++ post1.author ++ ": " ++ post1.title ∧
    notifAlice.timestamp = 5 ∧ notifAlice.postId = post1.id ∧
    notifAlice.topic = post1.topic ∧ notifAlice.read = false :=
  publish_notification_shape sysAlice post1 5 (fun _ => true) notifAlice
    (by decide) (by decide)

/-- C6: a completed `unsubscribe(u,t)` does not touch u's notification
list; a subsequent publish to t appends nothing for u; and the backlog is
only emptied once `clearFor(u)` runs.  (The registry, a JS object, has one
entry per username, whence the Nodup hypothesis on its keys.) -/
theorem unsubscribe_stops_future_delivery (sys : SystemState) (u t : String)
    (p : Post) (now : Nat) (appendOk : String → Bool)
    (hu : u ≠ "") (ht : t ≠ "")
    (hnd : (sys.userSubscriptions.map Prod.fst).Nodup)
    (htopic : p.topic = t) :
    listFor (httpUnsubscribe sys u t).1 u = listFor sys u ∧
    listFor (publish (httpUnsubscribe sys u t).1 p now true appendOk).state u
      = listFor sys u ∧
    listFor (clearFor (publish (httpUnsubscribe sys u t).1 p now true appendOk).state u) u
      = [] := by
  have h1 : listFor (httpUnsubscribe sys u t).1 u = listFor sys u := by
    unfold listFor
    rw [httpUnsubscribe_notifications]
  have hno : hasSub ((httpUnsubscribe sys u t).1).userSubscriptions u p.topic = false := by
    rw [httpUnsubscribe_subs_valid sys u t hu ht, htopic]
    exact hasSub_subsDelete_self u t sys.userSubscriptions hnd
  have h2 := listFor_publish_of_no_sub (httpUnsubscribe sys u t).1 u p now true appendOk hno
  exact ⟨h1, h2.trans h1, listFor_clearFor_self _ u⟩

/-- Witness for C6: alice unsubscribes from "sports", then `post1` is
published there. -/
theorem unsubscribe_stops_future_delivery_witness :
    listFor (httpUnsubscribe sysAlice "alice" "sports").1 "alice"
      = listFor sysAlice "alice" ∧
    listFor (publish (httpUnsubscribe sysAlice "alice" "sports").1 post1 7 true
        (fun _ => true)).state "alice"
      = listFor sysAlice "alice" ∧
    listFor (clearFor (publish (httpUnsubscribe sysAlice "alice" "sports").1 post1 7 true
        (fun _ => true)).state "alice") "alice"
      = [] :=
  unsubscribe_stops_future_delivery sysAlice "alice" "sports" post1 7 (fun _ => true)
    (by decide) (by decide) (by decide) (by decide)

/-- C7: clearing u's notifications leaves `listFor(u)` with zero entries
and leaves every other user's list exactly as it was. -/
theorem clear_exhaustive_and_scoped :
    (∀ (sys : SystemState) (u : String), listFor (clearFor sys u) u = []) ∧
    (∀ (sys : SystemState) (u v : String), v ≠ u →
        listFor (clearFor sys u) v = listFor sys v) :=
  ⟨listFor_clearFor_self, fun sys u v h => listFor_clearFor_other sys u v h⟩

/-- Witness for C7: clearing alice's log does not change carol's. -/
theorem clear_exhaustive_and_scoped_witness :
    listFor (clearFor sysAlice "alice") "carol" = listFor sysAlice "carol" :=
  clear_exhaustive_and_scoped.2 sysAlice "alice" "carol" (by decide)

/-- C8: applying the HTTP subscribe handler, the socket `subscribeToTopic`
event, or the HTTP unsubscribe handler a second time with the same
arguments leaves the state exactly as after the first call. -/
theorem subscribe_unsubscribe_idempotent :
    (∀ (sys : SystemState) (u t : String),
        (httpSubscribe (httpSubscribe sys u t).1 u t).1 = (httpSubscribe sys u t).1) ∧
    (∀ (sys : SystemState) (sid : Nat) (t : String),
        socketSubscribeToTopic (socketSubscribeToTopic sys sid t) sid t
          = socketSubscribeToTopic sys sid t) ∧
    (∀ (sys : SystemState) (u t : String),
        (httpUnsubscribe (httpUnsubscribe sys u t).1 u t).1 = (httpUnsubscribe sys u t).1) := by
  refine ⟨?_, socketSubscribeToTopic_idem, ?_⟩
  · intro sys u t
    rw [httpSubscribe_state, httpSubscribe_state]
  · intro sys u t
    by_cases h : u = "" ∨ t = ""
    · simp [httpUnsubscribe, h]
    · simp [httpUnsubscribe, h, subsDelete_idem]

/-- C9: the fan-out's per-subscriber `createNotification` swallows its own
store failures, so with an arbitrary per-subscriber failure pattern the
publish still answers 201, still pushes to every recipient in order, and
still appends the notification of every recipient whose store call
succeeded. -/
theorem fanout_partial_failure_tolerant (sys : SystemState) (p : Post) (now : Nat)
    (appendOk : String → Bool) :
    (publish sys p now true appendOk).status = 201 ∧
    (publish sys p now true appendOk).emits
      = (fanoutRecipients sys.userSubscriptions p.topic).map
          (fun u => (u, (⟨publishMessage p, now, p.id, p.topic⟩ : NotifBody))) ∧
    (∀ u : String, u ∈ fanoutRecipients sys.userSubscriptions p.topic →
        appendOk u = true →
        notifOf ⟨publishMessage p, now, p.id, p.topic⟩ u
          ∈ (publish sys p now true appendOk).state.notifications) := by
  refine ⟨rfl, rfl, ?_⟩
  intro u hmem hok
  rw [publish_notifications]
  refine List.mem_append.mpr (Or.inr ?_)
  exact List.mem_map.mpr ⟨u, List.mem_filter.mpr ⟨hmem, hok⟩, rfl⟩

/-- Witness for C9: alice's notification store fails, yet bob's
notification is still appended. -/
theorem fanout_partial_failure_tolerant_witness :
    notifOf ⟨publishMessage post1, 5, post1.id, post1.topic⟩ "bob"
      ∈ (publish sysTwo post1 5 true (fun u => u != "alice")).state.notifications :=
  (fanout_partial_failure_tolerant sysTwo post1 5 (fun u => u != "alice")).2.2 "bob"
    (by decide) (by decide)

/-- C10: a `subscribeToTopic` event on a session that never registered
joins the session to the topic's room but registers no subscription: the
registry (and the log) are unchanged, and a publish after the event logs
exactly what it would have logged without it. -/
theorem unregistered_subscribeToTopic_no_subscription (sys : SystemState) (sid : Nat)
    (t : String) (s : Socket)
    (hs : sockLookup sys.sockets sid = some s) (hu : s.username = none) :
    (socketSubscribeToTopic sys sid t).userSubscriptions = sys.userSubscriptions ∧
    sockLookup (socketSubscribeToTopic sys sid t).sockets sid
      = some { s with rooms := roomJoin s.rooms t } ∧
    (∀ (p : Post) (now : Nat) (saveOk : Bool) (appendOk : String → Bool),
        (publish (socketSubscribeToTopic sys sid t) p now saveOk appendOk).state.notifications
          = (publish sys p now saveOk appendOk).state.notifications) := by
  have htr : usernameTruthy s.username = false := by rw [hu]; rfl
  have hsubs : (socketSubscribeToTopic sys sid t).userSubscriptions
      = sys.userSubscriptions := by
    rw [socketSubscribeToTopic_subs_some sys sid t s hs, htr]
    simp
  have hsock : (socketSubscribeToTopic sys sid t).sockets
      = sockUpdate sys.sockets sid { s with rooms := roomJoin s.rooms t } := by
    unfold socketSubscribeToTopic
    rw [hs]
  have hnot : (socketSubscribeToTopic sys sid t).notifications = sys.notifications := by
    unfold socketSubscribeToTopic
    rw [hs]
  refine ⟨hsubs, ?_, ?_⟩
  · rw [hsock]
    exact sockLookup_sockUpdate sid _ sys.sockets s hs
  · intro p now saveOk appendOk
    cases saveOk with
    | false => rw [publish_fail, publish_fail, hnot]
    | true => rw [publish_notifications, publish_notifications, hnot, hsubs]

/-- Witness for C10: a connected, unregistered session subscribes to
"sports". -/
theorem unregistered_subscribeToTopic_no_subscription_witness :
    (socketSubscribeToTopic sysConn 1 "sports").userSubscriptions
      = sysConn.userSubscriptions :=
  (unregistered_subscribeToTopic_no_subscription sysConn 1 "sports" ⟨none, []⟩
    (by decide) (by decide)).1

end BlogServer
